import Mathlib

/-!
Shallow embedding of the travel-planning state machine of `src/stategraph.py`
(the LangGraph flow: enhance → draft → decide_tools → run_tools → refine →
human_review → finalize, with the review/refine loop and the pause/resume
contract), together with theorems settling the frozen claims about it.

Modelling conventions, chosen to mirror Python semantics of the source:

* `TravelState` embeds the `TravelState` TypedDict (`total=False`).  Every
  field is read in the source through `state.get(key, default)` or through
  truthiness, so an absent key, a `None` value and the falsy default are
  indistinguishable to the code; the embedding therefore collapses them onto
  the default value of each field (`""`, `none`, `false`, `0`, `[]`, `3` for
  `duration`).  The one place this collapse is visible is `get` with a
  non-falsy default (`state.get("destination", "Unknown")` and the like):
  there the embedding returns the default exactly when the stored string is
  empty, which agrees with the source whenever the front ends either omit an
  unknown key or store a falsy value for it.
* Python strings become `String`; `s[:n]` is `String.take`, `x in s` is
  `strContainsSub`, `str.lower`/`upper`/`startswith` are
  `String.toLower`/`toUpper`/`startsWith`, and `str.strip()` is `pyStrip`.
* A language-model collaborator call (`agent.invoke` inside a `try` block) is
  modelled by an `Outcome := Except String String` argument: `.ok text` is
  the response text the source reads off the response object, `.error e` is
  an exception carrying message `e` (caught by the `except` clause).  Claims
  are proved for every outcome, hence for every collaborator behaviour.
  Likewise each of the four data tools of `run_tools` gets its own outcome in
  `ToolOutcomes`, and `json.loads` (standard library, raising
  `JSONDecodeError` on bad input) is an explicit parameter
  `jl : String → Option (List String)` with `none` modelling the raised
  decode error (the pipeline only ever consumes JSON arrays of tool-name
  strings).
* Python `dict` (insertion-ordered) becomes an association list
  `List (String × String)`; `list.append` becomes `++ [x]`.
* The source file's string literals are double-encoded UTF-8 (mojibake such
  as `â€¢` for a bullet); the embedding reproduces those literals character
  for character using `\uXXXX` escapes.
-/

namespace TravelPlanner

/-- A role-tagged conversation message: `HumanMessage` / `AIMessage` of the
source, keeping only the role and the `content` string that the code ever
builds or reads. -/
inductive Message
  | human (content : String)
  | ai (content : String)
deriving DecidableEq, Repr

/-- Outcome of one collaborator invocation inside a `try` block: the response
text, or the message of the exception the collaborator raised. -/
abbrev Outcome := Except String String

/-- `MAX_ITERATIONS = 5` of `src/stategraph.py`. -/
def MAX_ITERATIONS : Int := 5

/-- The `TravelState` TypedDict of `src/stategraph.py` (`total=False`); field
defaults encode the absent/`None`/falsy collapse described in the header. -/
structure TravelState where
  request : String := ""
  origin : String := ""
  destination : String := ""
  depart_date : String := ""
  return_date : String := ""
  check_in : String := ""
  check_out : String := ""
  interests : String := ""
  duration : Int := 3
  messages : List Message := []
  draft_plan : String := ""
  plan : String := ""
  selected_tools : List String := []
  tool_results : List (String × String) := []
  human_feedback : Option String := none
  approved : Bool := false
  awaiting_review : Bool := false
  iteration_count : Int := 0
  execution_mode : String := ""
  notes : List String := []
deriving DecidableEq, Repr

/-- Python truthiness of an `Optional[str]`: `None` and `""` are falsy. -/
def optStrTruthy : Option String → Bool
  | none => false
  | some s => s ≠ ""

/-- Python `needle in hay` substring test. -/
def strContainsSub (hay needle : String) : Bool :=
  hay.toList.tails.any (fun t => needle.toList.isPrefixOf t)

/-- Python `str.strip()` with no argument: remove leading and trailing
whitespace (defined over the character list so that it evaluates inside the
kernel; Lean's `String.trim` is extensionally the same but is defined by
well-founded recursion). -/
def pyStrip (s : String) : String :=
  String.mk (((s.toList.dropWhile Char.isWhitespace).reverse.dropWhile
    Char.isWhitespace).reverse)

/-- Python `repr` of a list of strings, as an f-string interpolates it
(`['a', 'b']`); the source only ever interpolates lists of plain tool names,
which repr renders with single quotes. -/
def pyListRepr (xs : List String) : String :=
  "[" ++ String.intercalate ", " (xs.map (fun x => "'" ++ x ++ "'")) ++ "]"

/-- `enhance_request` of `src/stategraph.py` lines 97–135.  `llm` is the
outcome of the `build_planner_agent()` + `invoke` call in the `try` block. -/
def enhance_request (llm : Outcome) (s : TravelState) : TravelState :=
  let user_req := s.request
  if pyStrip user_req = "" then
    { s with notes := ["request missing"], draft_plan := "", plan := "" }
  else
    let messages := s.messages
    match llm with
    | .ok text =>
        let enhance_prompt :=
          "Clarify and enhance this travel request. Provide 3 bullet points:\n" ++
          "\u00e2\u20ac\u00a2 Goals: What does the traveler want to accomplish?\n" ++
          "\u00e2\u20ac\u00a2 Constraints: Budget, time, visa, mobility, etc.\n" ++
          "\u00e2\u20ac\u00a2 Preferences: Climate, accommodation style, pace, etc.\n\n" ++
          "Request: " ++ user_req
        let messages_with_input :=
          messages ++ [Message.human enhance_prompt, Message.ai text]
        { s with
          draft_plan := text
          messages := messages_with_input
          notes := s.notes ++ ["request enhanced"] }
    | .error _ =>
        let text :=
          "Mock: Clarified travel request\n\u00e2\u20ac\u00a2 Goals: Explore destination\n\u00e2\u20ac\u00a2 Constraints: Standard\n\u00e2\u20ac\u00a2 Preferences: Flexible"
        let messages_with_input :=
          messages ++ [Message.human user_req, Message.ai text]
        { s with
          draft_plan := text
          messages := messages_with_input
          notes := s.notes ++ ["request enhanced"] }

/-- `draft_plan` of `src/stategraph.py` lines 138–174 (the phase function;
the state field of the same name is `TravelState.draft_plan`). -/
def draft_plan (llm : Outcome) (s : TravelState) : TravelState :=
  let messages := s.messages
  let duration := s.duration
  -- context = state.get("draft_plan", state.get("request", ""))
  let context := if s.draft_plan = "" then s.request else s.draft_plan
  match llm with
  | .ok text =>
      let prompt :=
        "Create a " ++ toString duration ++
        "-day travel itinerary outline for a traveler with these goals:\n" ++
        context ++ "\n\n" ++
        "Destination: " ++ (if s.destination = "" then "Unknown" else s.destination) ++ "\n" ++
        "Depart: " ++ (if s.depart_date = "" then "TBD" else s.depart_date) ++ "\n" ++
        "Return: " ++ (if s.return_date = "" then "TBD" else s.return_date) ++ "\n\n" ++
        "Provide day-by-day outline (actual flight/hotel data will be added later).\n" ++
        "Format as numbered days with activities."
      let messages_with_input := messages ++ [Message.human prompt, Message.ai text]
      { s with
        draft_plan := text
        messages := messages_with_input
        notes := s.notes ++ ["draft " ++ toString duration ++ "-day plan created"] }
  | .error _ =>
      let text :=
        "Day-by-Day Outline (" ++ toString duration ++
        " days):\n\u00e2\u20ac\u00a2 Day 1: Arrival\n\u00e2\u20ac\u00a2 Days 2-" ++
        toString (duration - 1) ++ ": Exploration\n\u00e2\u20ac\u00a2 Day " ++
        toString duration ++ ": Departure"
      let messages_with_input :=
        messages ++ [Message.human "create draft plan", Message.ai text]
      { s with
        draft_plan := text
        messages := messages_with_input
        notes := s.notes ++ ["draft " ++ toString duration ++ "-day plan created"] }

/-- The `response_text[start_idx:end_idx]` slice of `decide_tools`: the
substring from the first `[` to the last `]` (`str.find` / `str.rfind` with
their `-1` sentinel and the `start_idx >= 0 and end_idx > start_idx` guard);
`none` when no such bracket pair exists. -/
def extractBracketSlice (text : String) : Option String :=
  let cs := text.toList
  let start_idx : Int := match cs.findIdx? (· = '[') with
    | some i => (i : Int)
    | none => -1
  let end_idx : Int := (match cs.reverse.findIdx? (· = ']') with
    | some j => ((cs.length - 1 - j : Nat) : Int)
    | none => -1) + 1
  if 0 ≤ start_idx ∧ start_idx < end_idx then
    some (String.mk (((cs.drop start_idx.toNat)).take (end_idx - start_idx).toNat))
  else
    none

/-- The JSON-array extraction of `decide_tools` lines 204–215: slice from the
first `[` to the last `]`, then `json.loads`; a missing bracket pair or a
decode error (`jl _ = none`) yields the empty selection. -/
def parseToolSelection (jl : String → Option (List String)) (text : String) : List String :=
  match extractBracketSlice text with
  | some json_str =>
      match jl json_str with
      | some selected => selected
      | none => []
  | none => []

/-- `decide_tools` of `src/stategraph.py` lines 177–241.  `llm` is the outcome
of the tool-selector agent call; `jl` models `json.loads`. -/
def decide_tools (llm : Outcome) (jl : String → Option (List String))
    (s : TravelState) : TravelState :=
  let messages := s.messages
  let has_flights := s.origin ≠ "" ∧ s.destination ≠ "" ∧ s.depart_date ≠ ""
  let has_hotels := s.destination ≠ "" ∧ s.check_in ≠ "" ∧ s.check_out ≠ ""
  let has_dest := s.destination ≠ ""
  match llm with
  | .ok response_text =>
      let prompt :=
        "Based on this travel request, decide which tools to call.\n" ++
        "Available tools: find_flights, find_hotels, attraction_finder, weather_checker\n\n" ++
        "Available data:\n" ++
        "- Flights: " ++ (if has_flights then "yes (origin, dest, date provided)" else "no (missing data)") ++ "\n" ++
        "- Hotels: " ++ (if has_hotels then "yes (dest, check-in/out provided)" else "no (missing data)") ++ "\n" ++
        "- Attractions: " ++ (if has_dest then "yes (destination provided)" else "no (missing data)") ++ "\n" ++
        "- Weather: " ++ (if has_dest then "yes (destination provided)" else "no (missing data)") ++ "\n\n" ++
        "Context: " ++ s.draft_plan ++ "\n\n" ++
        "Output JSON list of tools to call: ['find_flights', 'find_hotels', 'attraction_finder', 'weather_checker']\n" ++
        "Only include tools where data is available."
      let messages_with_input :=
        messages ++ [Message.human prompt, Message.ai response_text]
      let selected := parseToolSelection jl response_text
      { s with
        selected_tools := selected
        messages := messages_with_input
        notes := s.notes ++ ["tool selection: " ++ pyListRepr selected] }
  | .error _ =>
      let selected :=
        (if has_flights then ["find_flights"] else []) ++
        (if has_hotels then ["find_hotels"] else []) ++
        (if has_dest then ["attraction_finder", "weather_checker"] else [])
      let messages_with_input :=
        messages ++ [Message.human "decide which tools to call",
                     Message.ai ("Selected tools: " ++ pyListRepr selected)]
      { s with
        selected_tools := selected
        messages := messages_with_input
        notes := s.notes ++ ["tool selection: " ++ pyListRepr selected] }

/-- Outcomes of the four data-tool invocations a single `run_tools` call may
perform (each tool is invoked at most once per call, inside its own
`try`/`except`). -/
structure ToolOutcomes where
  find_flights : Outcome := .ok ""
  find_hotels : Outcome := .ok ""
  attraction_finder : Outcome := .ok ""
  weather_checker : Outcome := .ok ""

/-- The `find_flights` block of `run_tools` (lines 251–274): the
`tool_results` entries it adds and the notes it appends. -/
def runFlights (s : TravelState) (o : Outcome) : List (String × String) × List String :=
  if s.selected_tools.contains "find_flights" then
    if s.origin ≠ "" ∧ s.destination ≠ "" ∧ s.depart_date ≠ "" then
      match o with
      | .ok resp =>
          ([("flights", resp)],
           [if strContainsSub resp.toLower "mock" then "flights: mock data"
            else "flights: live data"])
      | .error e =>
          ([("flights", "Error: " ++ e)], ["flights: error - " ++ e])
    else
      ([], ["flights: skipped (missing origin/destination/depart_date)"])
  else ([], [])

/-- The `find_hotels` block of `run_tools` (lines 276–298). -/
def runHotels (s : TravelState) (o : Outcome) : List (String × String) × List String :=
  if s.selected_tools.contains "find_hotels" then
    if s.destination ≠ "" ∧ s.check_in ≠ "" ∧ s.check_out ≠ "" then
      match o with
      | .ok resp =>
          ([("hotels", resp)],
           [if strContainsSub resp.toLower "mock" then "hotels: mock data"
            else "hotels: live data"])
      | .error e =>
          ([("hotels", "Error: " ++ e)], ["hotels: error - " ++ e])
    else
      ([], ["hotels: skipped (missing destination/check_in/check_out)"])
  else ([], [])

/-- The `attraction_finder` block of `run_tools` (lines 300–319). -/
def runAttractions (s : TravelState) (o : Outcome) : List (String × String) × List String :=
  if s.selected_tools.contains "attraction_finder" then
    if s.destination ≠ "" then
      match o with
      | .ok resp =>
          ([("attractions", resp)],
           [if strContainsSub resp.toLower "mock" then "attractions: mock data"
            else "attractions: live data"])
      | .error e =>
          ([("attractions", "Error: " ++ e)], ["attractions: error - " ++ e])
    else
      ([], ["attractions: skipped (missing destination)"])
  else ([], [])

/-- The `weather_checker` block of `run_tools` (lines 321–340). -/
def runWeather (s : TravelState) (o : Outcome) : List (String × String) × List String :=
  if s.selected_tools.contains "weather_checker" then
    if s.destination ≠ "" then
      match o with
      | .ok resp =>
          ([("weather", resp)],
           [if strContainsSub resp.toLower "mock" then "weather: mock data"
            else "weather: live data"])
      | .error e =>
          ([("weather", "Error: " ++ e)], ["weather: error - " ++ e])
    else
      ([], ["weather: skipped (missing destination)"])
  else ([], [])

/-- `run_tools` of `src/stategraph.py` lines 244–348: the four tool blocks run
strictly in sequence, into a `tool_results` dict that starts empty, and each
block appends its note before the blanket note. -/
def run_tools (tools : ToolOutcomes) (s : TravelState) : TravelState :=
  let fl := runFlights s tools.find_flights
  let ho := runHotels s tools.find_hotels
  let att := runAttractions s tools.attraction_finder
  let we := runWeather s tools.weather_checker
  { s with
    tool_results := fl.1 ++ ho.1 ++ att.1 ++ we.1
    notes := s.notes ++ fl.2 ++ ho.2 ++ att.2 ++ we.2 ++ ["tools executed sequentially"] }

/-- The filter of the `refine_plan` tool-summary loop: entries whose data is
truthy and does not start with `"Error"`. -/
def refineUsable (tool_results : List (String × String)) : List (String × String) :=
  tool_results.filter (fun p => p.2 ≠ "" ∧ ¬ p.2.startsWith "Error")

/-- `tool_context` as built by `refine_plan` lines 360–368. -/
def refineToolContext (tool_results : List (String × String)) : String :=
  if tool_results = [] then ""
  else
    "Real data available:\n" ++
    String.join ((refineUsable tool_results).map
      (fun p => "\n" ++ p.1.toUpper ++ ":\n" ++ p.2.take 500 ++ "\n"))

/-- `tool_summaries` as built by `refine_plan` lines 360–368 (each usable
entry truncated to 300 characters). -/
def refineToolSummaries (tool_results : List (String × String)) : List (String × String) :=
  (refineUsable tool_results).map (fun p => (p.1, p.2.take 300))

/-- The day-by-day outline loop of `_generate_fallback_itinerary`
(lines 487–502): `for day in range(1, duration + 1)`. -/
def fallbackDayLines (duration : Int) : List String :=
  (List.range duration.toNat).flatMap (fun k =>
    let day : Int := (k : Int) + 1
    if day = 1 then
      ["\n**Day " ++ toString day ++ ": Arrival**",
       "- Arrive at destination",
       "- Check in to hotel",
       "- Evening exploration of local area"]
    else if day = duration then
      ["\n**Day " ++ toString day ++ ": Departure**",
       "- Morning leisure time",
       "- Check out and depart"]
    else
      ["\n**Day " ++ toString day ++ ": Exploration**",
       "- Morning: Cultural attractions",
       "- Afternoon: Leisure & shopping",
       "- Evening: Local dining"])

/-- `_generate_fallback_itinerary` of `src/stategraph.py` lines 422–522.  The
emoji of the source file are double-encoded (mojibake); the `\uXXXX` escapes
below reproduce the file's characters exactly.  The `draft` parameter is
accepted and unused, as in the source. -/
def _generate_fallback_itinerary (draft : String) (tool_data : List (String × String))
    (duration : Int) (destination : String) (feedback : Option String) : String :=
  let _ := draft
  let dest_name := if destination = "" then "your destination" else destination
  let lines1 : List String :=
    ["# " ++ toString duration ++ "-Day Trip to " ++ dest_name ++ "\n"] ++
    (if optStrTruthy feedback then
      ["*Note: Incorporating feedback: " ++ feedback.getD "" ++ "*\n"]
     else [])
  let hotels :=
    match tool_data.lookup "hotels" with
    | some hotel_data =>
        let bad := strContainsSub hotel_data "PARTIAL RESULTS" ||
          strContainsSub hotel_data.toLower "mock" ||
          strContainsSub hotel_data.toLower "demo"
        (["## \u00f0\u0178\u00a8 Accommodation", hotel_data.take 400, ""],
         [if bad then "\u00f0\u0178\u00a8 Hotels: \u00e2\u0161\u00a0\u00ef\u00b8 Partial/fallback data"
          else "\u00f0\u0178\u00a8 Hotels: \u00e2\u0153\u2026 Live data"],
         bad)
    | none => (([] : List String), ([] : List String), false)
  let weather :=
    match tool_data.lookup "weather" with
    | some weather_data =>
        let bad := strContainsSub weather_data.toLower "error:" ||
          strContainsSub weather_data.toLower "mock"
        (["## \u00f0\u0178\u0152\u00a4\u00ef\u00b8 Weather Forecast", weather_data.take 300, ""],
         [if bad then "\u00f0\u0178\u0152\u00a4\u00ef\u00b8 Weather: \u00e2\u0161\u00a0\u00ef\u00b8 Unavailable or estimated"
          else "\u00f0\u0178\u0152\u00a4\u00ef\u00b8 Weather: \u00e2\u0153\u2026 Live data"],
         bad)
    | none => (([] : List String), ([] : List String), false)
  let attractions :=
    match tool_data.lookup "attractions" with
    | some attraction_data =>
        let bad := strContainsSub attraction_data "PARTIAL RESULTS" ||
          strContainsSub attraction_data.toLower "suggested attractions"
        (["## \u00f0\u0178\u017d\u00ad Attractions & Activities", attraction_data.take 400, ""],
         [if bad then "\u00f0\u0178\u017d\u00ad Attractions: \u00e2\u0161\u00a0\u00ef\u00b8 General recommendations"
          else "\u00f0\u0178\u017d\u00ad Attractions: \u00e2\u0153\u2026 Live data"],
         bad)
    | none => (([] : List String), ([] : List String), false)
  let flights :=
    match tool_data.lookup "flights" with
    | some flight_data =>
        let bad := strContainsSub flight_data.toLower "mock" ||
          strContainsSub flight_data.toLower "demo"
        (["## \u00e2\u0153\u02c6\u00ef\u00b8 Flight Options", flight_data.take 400, ""],
         [if bad then "\u00e2\u0153\u02c6\u00ef\u00b8 Flights: \u00e2\u0161\u00a0\u00ef\u00b8 Demo/sample data"
          else "\u00e2\u0153\u02c6\u00ef\u00b8 Flights: \u00e2\u0153\u2026 Live data"],
         bad)
    | none => (([] : List String), ([] : List String), false)
  let data_sources := hotels.2.1 ++ weather.2.1 ++ attractions.2.1 ++ flights.2.1
  let partialResults : Bool := hotels.2.2 || weather.2.2 || attractions.2.2 || flights.2.2
  let lines : List String :=
    lines1 ++ hotels.1 ++ weather.1 ++ attractions.1 ++ flights.1 ++
    ["## \u00f0\u0178\u201c\u2026 Day-by-Day Outline"] ++
    fallbackDayLines duration ++
    ["\n---", "\n### \u00f0\u0178\u201c\u0160 Data Sources"] ++
    data_sources.map (fun source => "- " ++ source) ++
    (if partialResults then
      ["\n\u00e2\u0161\u00a0\u00ef\u00b8 **PARTIAL RESULTS NOTICE**",
       "Some data sources returned incomplete or fallback information due to:",
       "- API rate limits or temporary unavailability",
       "- Dates outside forecast range (weather)",
       "- No availability for requested dates (hotels)",
       "\n*For complete planning, try again later or adjust your dates.*"]
     else
      ["\n*Note: LLM refinement was unavailable. This outline uses live tool data where possible.*"])
  String.intercalate "\n" lines

/-- `refine_plan` of `src/stategraph.py` lines 351–419: merges tool data (and
any human feedback) into the plan, resets `approved` to `False` and clears
`human_feedback`; on collaborator failure substitutes the deterministic
fallback itinerary. -/
def refine_plan (llm : Outcome) (s : TravelState) : TravelState :=
  let messages := s.messages
  let draft := s.draft_plan
  let tool_results := s.tool_results
  let human_feedback := s.human_feedback
  let duration := s.duration
  -- destination = state.get("destination", "your destination")
  let destination := if s.destination = "" then "your destination" else s.destination
  let tool_context := refineToolContext tool_results
  match llm with
  | .ok refined_text =>
      let prompt :=
        if optStrTruthy human_feedback then
          "User feedback on the itinerary: '" ++ human_feedback.getD "" ++ "'\n\n" ++
          "Refine the itinerary incorporating this feedback and real data.\n\n" ++
          "Original draft:\n" ++ draft ++ "\n\n" ++
          tool_context ++ "\n\n" ++
          "Create a detailed final itinerary with actual prices, times, and booking info where available."
        else
          "Enhance this draft itinerary with real data:\n" ++ draft ++ "\n\n" ++
          tool_context ++ "\n\n" ++
          "Create a detailed final itinerary with actual prices, times, and hotel/flight recommendations."
      let messages_with_input :=
        messages ++ [Message.human prompt, Message.ai refined_text]
      { s with
        plan := refined_text
        messages := messages_with_input
        approved := false
        human_feedback := none
        notes := s.notes ++ ["plan refined with tool results"] }
  | .error _ =>
      let refined_text :=
        _generate_fallback_itinerary draft (refineToolSummaries tool_results)
          duration destination human_feedback
      let messages_with_input :=
        messages ++ [Message.human "refine plan with tool data", Message.ai refined_text]
      { s with
        plan := refined_text
        messages := messages_with_input
        approved := false
        human_feedback := none
        notes := s.notes ++ ["plan refined with tool results"] }

/-- `human_review` of `src/stategraph.py` lines 525–547: pure state flagging,
sets `awaiting_review = True` and appends the iteration note. -/
def human_review (s : TravelState) : TravelState :=
  { s with
    awaiting_review := true
    notes := s.notes ++
      ["awaiting human review (iteration " ++ toString (s.iteration_count + 1) ++
       "/" ++ toString MAX_ITERATIONS ++ ")"] }

/-- The three outcomes of `route_after_review`. -/
inductive Route
  | toFinalize
  | toRefine
  | toEnd
deriving DecidableEq, Repr

/-- `route_after_review` of `src/stategraph.py` lines 550–585. -/
def route_after_review (s : TravelState) : Route :=
  let approved := s.approved
  let awaiting := s.awaiting_review
  let iteration := s.iteration_count
  let feedback := s.human_feedback
  if awaiting then .toEnd
  else if approved then .toFinalize
  else if optStrTruthy feedback ∧ iteration < MAX_ITERATIONS then .toRefine
  else if MAX_ITERATIONS ≤ iteration then .toFinalize
  else .toEnd

/-- `finalize` of `src/stategraph.py` lines 588–613: copies `draft_plan` into
`plan` when `plan` is falsy and `draft_plan` truthy, clears `awaiting_review`,
sets `approved`. -/
def finalize (s : TravelState) : TravelState :=
  let plan := s.plan
  let draft := s.draft_plan
  let plan := if plan = "" ∧ draft ≠ "" then draft else plan
  { s with
    plan := plan
    awaiting_review := false
    approved := true
    notes := s.notes ++ ["itinerary finalized"] }

/-- `continue_after_feedback` of `src/stategraph.py` lines 686–712: the
resume entry point.  If `approved` is truthy it finalizes directly; else if
`human_feedback` is truthy it clears the pause flag, re-runs `refine_plan`
then `human_review`; else it returns the state unchanged. -/
def continue_after_feedback (llm : Outcome) (s : TravelState) : TravelState :=
  if s.approved then finalize s
  else if optStrTruthy s.human_feedback then
    human_review (refine_plan llm { s with awaiting_review := false })
  else s

/-- States reachable by the graph of `build_graph` (lines 616–666) together
with the documented external-actor resume contract.  Constructors mirror the
graph's edges and the contract:
* `init`: any starting state with `approved = False`, `awaiting_review = False`;
* one constructor per phase node as the graph may run it — in `build_graph`
  the only edge into `human_review` is `refine → human_review` (line 650),
  and in `continue_after_feedback` `human_review` likewise runs immediately
  after `refine_plan` (lines 707–708), so the `stepReview` constructor is the
  composite `human_review ∘ refine_plan`;
* `stepApprove` / `stepFeedback`: the external actor's documented update on a
  paused state (sets `approved` or `human_feedback`, clears
  `awaiting_review`, increments `iteration_count`);
* `stepResume`: the `continue_after_feedback` entry point. -/
inductive Reachable : TravelState → Prop
  | init (s : TravelState) : s.approved = false → s.awaiting_review = false → Reachable s
  | stepEnhance (llm : Outcome) (s : TravelState) :
      Reachable s → Reachable (enhance_request llm s)
  | stepDraft (llm : Outcome) (s : TravelState) :
      Reachable s → Reachable (draft_plan llm s)
  | stepDecideTools (llm : Outcome) (jl : String → Option (List String)) (s : TravelState) :
      Reachable s → Reachable (decide_tools llm jl s)
  | stepRunTools (tools : ToolOutcomes) (s : TravelState) :
      Reachable s → Reachable (run_tools tools s)
  | stepRefine (llm : Outcome) (s : TravelState) :
      Reachable s → Reachable (refine_plan llm s)
  | stepReview (llm : Outcome) (s : TravelState) :
      Reachable s → Reachable (human_review (refine_plan llm s))
  | stepFinalize (s : TravelState) : Reachable s → Reachable (finalize s)
  | stepApprove (s : TravelState) : Reachable s → s.awaiting_review = true →
      Reachable { s with approved := true, awaiting_review := false,
                         iteration_count := s.iteration_count + 1 }
  | stepFeedback (s : TravelState) (fb : String) : Reachable s → s.awaiting_review = true →
      Reachable { s with approved := false, human_feedback := some fb,
                         awaiting_review := false, iteration_count := s.iteration_count + 1 }
  | stepResume (llm : Outcome) (s : TravelState) :
      Reachable s → Reachable (continue_after_feedback llm s)

/-! ## Helper lemmas -/

theorem isPrefixOf_append_self (l t : List String) :
    List.isPrefixOf l (l ++ t) = true := by
  induction l with
  | nil => simp [List.isPrefixOf]
  | cons a l ih => simp [List.isPrefixOf, ih]

theorem lookup_eq_none_of_keys {l : List (String × String)} {k : String}
    (h : ∀ p ∈ l, p.1 ≠ k) : List.lookup k l = none := by
  induction l with
  | nil => rfl
  | cons a t ih =>
      obtain ⟨k', v⟩ := a
      have hk : (k == k') = false := by
        have := h (k', v) (List.mem_cons_self _ _)
        simpa [beq_eq_false_iff_ne, ne_comm] using this
      simp only [List.lookup, hk]
      exact ih fun p hp => h p (List.mem_cons_of_mem _ hp)

theorem lookup_append_left_none {l m : List (String × String)} {k : String}
    (h : List.lookup k l = none) : List.lookup k (l ++ m) = List.lookup k m := by
  induction l with
  | nil => rfl
  | cons a t ih =>
      obtain ⟨k', v⟩ := a
      by_cases hk : (k == k') = true
      · simp [List.lookup, hk] at h
      · have hkf : (k == k') = false := by simpa using hk
        simp only [List.cons_append, List.lookup, hkf] at h ⊢
        exact ih h

/-! ## Field-effect lemmas for the phase functions -/

@[simp] theorem enhance_request_approved (llm : Outcome) (s : TravelState) :
    (enhance_request llm s).approved = s.approved := by
  cases llm <;> simp only [enhance_request] <;> split <;> rfl

@[simp] theorem enhance_request_awaiting (llm : Outcome) (s : TravelState) :
    (enhance_request llm s).awaiting_review = s.awaiting_review := by
  cases llm <;> simp only [enhance_request] <;> split <;> rfl

@[simp] theorem draft_plan_approved (llm : Outcome) (s : TravelState) :
    (draft_plan llm s).approved = s.approved := by cases llm <;> rfl

@[simp] theorem draft_plan_awaiting (llm : Outcome) (s : TravelState) :
    (draft_plan llm s).awaiting_review = s.awaiting_review := by cases llm <;> rfl

@[simp] theorem decide_tools_approved (llm : Outcome) (jl : String → Option (List String))
    (s : TravelState) : (decide_tools llm jl s).approved = s.approved := by
  cases llm <;> rfl

@[simp] theorem decide_tools_awaiting (llm : Outcome) (jl : String → Option (List String))
    (s : TravelState) : (decide_tools llm jl s).awaiting_review = s.awaiting_review := by
  cases llm <;> rfl

@[simp] theorem run_tools_approved (tools : ToolOutcomes) (s : TravelState) :
    (run_tools tools s).approved = s.approved := rfl

@[simp] theorem run_tools_awaiting (tools : ToolOutcomes) (s : TravelState) :
    (run_tools tools s).awaiting_review = s.awaiting_review := rfl

@[simp] theorem refine_plan_approved (llm : Outcome) (s : TravelState) :
    (refine_plan llm s).approved = false := by cases llm <;> rfl

@[simp] theorem refine_plan_awaiting (llm : Outcome) (s : TravelState) :
    (refine_plan llm s).awaiting_review = s.awaiting_review := by cases llm <;> rfl

@[simp] theorem refine_plan_human_feedback (llm : Outcome) (s : TravelState) :
    (refine_plan llm s).human_feedback = none := by cases llm <;> rfl

@[simp] theorem human_review_awaiting (s : TravelState) :
    (human_review s).awaiting_review = true := rfl

@[simp] theorem human_review_approved (s : TravelState) :
    (human_review s).approved = s.approved := rfl

@[simp] theorem finalize_awaiting (s : TravelState) :
    (finalize s).awaiting_review = false := rfl

@[simp] theorem finalize_approved (s : TravelState) :
    (finalize s).approved = true := rfl

theorem enhance_request_notes_blank (llm : Outcome) (s : TravelState)
    (h : pyStrip s.request = "") : (enhance_request llm s).notes = ["request missing"] := by
  cases llm <;> simp only [enhance_request] <;> rw [if_pos h]

theorem enhance_request_notes (llm : Outcome) (s : TravelState)
    (h : ¬ pyStrip s.request = "") :
    (enhance_request llm s).notes = s.notes ++ ["request enhanced"] := by
  cases llm <;> simp only [enhance_request] <;> rw [if_neg h]

theorem draft_plan_notes (llm : Outcome) (s : TravelState) :
    (draft_plan llm s).notes
      = s.notes ++ ["draft " ++ toString s.duration ++ "-day plan created"] := by
  cases llm <;> rfl

theorem decide_tools_notes (llm : Outcome) (jl : String → Option (List String))
    (s : TravelState) :
    ∃ entry, (decide_tools llm jl s).notes = s.notes ++ [entry] := by
  cases llm <;> exact ⟨_, rfl⟩

theorem run_tools_notes (tools : ToolOutcomes) (s : TravelState) :
    (run_tools tools s).notes
      = s.notes ++ ((runFlights s tools.find_flights).2 ++ (runHotels s tools.find_hotels).2
          ++ (runAttractions s tools.attraction_finder).2
          ++ (runWeather s tools.weather_checker).2 ++ ["tools executed sequentially"]) := by
  simp only [run_tools, List.append_assoc]

theorem refine_plan_notes (llm : Outcome) (s : TravelState) :
    (refine_plan llm s).notes = s.notes ++ ["plan refined with tool results"] := by
  cases llm <;> rfl

theorem human_review_notes (s : TravelState) :
    (human_review s).notes
      = s.notes ++ ["awaiting human review (iteration " ++ toString (s.iteration_count + 1)
          ++ "/" ++ toString MAX_ITERATIONS ++ ")"] := rfl

theorem finalize_notes (s : TravelState) :
    (finalize s).notes = s.notes ++ ["itinerary finalized"] := rfl

/-- Every `tool_results` entry `runFlights` adds is keyed `"flights"`. -/
theorem runFlights_keys (s : TravelState) (o : Outcome) :
    ∀ p ∈ (runFlights s o).1, p.1 = "flights" := by
  cases o <;> unfold runFlights <;> split_ifs <;> simp

theorem runHotels_keys (s : TravelState) (o : Outcome) :
    ∀ p ∈ (runHotels s o).1, p.1 = "hotels" := by
  cases o <;> unfold runHotels <;> split_ifs <;> simp

theorem runAttractions_keys (s : TravelState) (o : Outcome) :
    ∀ p ∈ (runAttractions s o).1, p.1 = "attractions" := by
  cases o <;> unfold runAttractions <;> split_ifs <;> simp

theorem runWeather_keys (s : TravelState) (o : Outcome) :
    ∀ p ∈ (runWeather s o).1, p.1 = "weather" := by
  cases o <;> unfold runWeather <;> split_ifs <;> simp

/-! ## Claims -/

/-- C1: for every state, `route_after_review` returns `end` when
`awaiting_review` is true; otherwise `finalize` when `approved` is true;
otherwise `refine` when `human_feedback` is present (truthy, i.e. a non-empty
text) and `iteration_count < MAX_ITERATIONS` (5); otherwise `finalize` when
`iteration_count ≥ MAX_ITERATIONS`; otherwise `end` — in exactly this
precedence order. -/
theorem route_after_review_precedence (s : TravelState) :
    (s.awaiting_review = true → route_after_review s = Route.toEnd) ∧
    (s.awaiting_review = false → s.approved = true →
      route_after_review s = Route.toFinalize) ∧
    (s.awaiting_review = false → s.approved = false →
      optStrTruthy s.human_feedback = true → s.iteration_count < MAX_ITERATIONS →
      route_after_review s = Route.toRefine) ∧
    (s.awaiting_review = false → s.approved = false →
      MAX_ITERATIONS ≤ s.iteration_count → route_after_review s = Route.toFinalize) ∧
    (s.awaiting_review = false → s.approved = false →
      optStrTruthy s.human_feedback = false → s.iteration_count < MAX_ITERATIONS →
      route_after_review s = Route.toEnd) := by
  refine ⟨?_, ?_, ?_, ?_, ?_⟩
  · intro hw
    simp [route_after_review, hw]
  · intro hw hap
    simp [route_after_review, hw, hap]
  · intro hw hap hfb hit
    simp [route_after_review, hw, hap, hfb, hit]
  · intro hw hap hit
    have hnotlt : ¬ s.iteration_count < MAX_ITERATIONS := by omega
    simp [route_after_review, hw, hap, hnotlt, hit]
  · intro hw hap hfb hit
    have hge : ¬ MAX_ITERATIONS ≤ s.iteration_count := by omega
    simp [route_after_review, hw, hap, hfb, hge]

/-- Witness for C1: a paused-then-resumed state with fresh feedback and
iteration 1 routes to `refine`. -/
theorem route_after_review_precedence_witness :
    route_after_review
        ({ human_feedback := some "add a museum day", iteration_count := 1 } : TravelState)
      = Route.toRefine :=
  (route_after_review_precedence _).2.2.1 rfl rfl (by decide) (by decide)

/-- C2 counterexample: `finalize` on a state whose `plan` and `draft_plan`
are both empty (as the blank-request short-circuit of `enhance_request`
produces) returns an empty final plan even though it sets
`approved = True`. -/
theorem finalize_nonempty_counterexample :
    (finalize ({} : TravelState)).plan = "" ∧
    (finalize ({} : TravelState)).approved = true := ⟨rfl, rfl⟩

/-- C2 amended: after `finalize` runs the plan is non-empty provided the
input `plan` or `draft_plan` was non-empty; `finalize` falls back to
`draft_plan` exactly when `plan` is empty, keeps a non-empty `plan`
unchanged, and always sets `approved` and clears `awaiting_review`. -/
theorem finalize_plan_amended (s : TravelState) :
    (s.plan = "" → s.draft_plan ≠ "" → (finalize s).plan = s.draft_plan) ∧
    (s.plan ≠ "" → (finalize s).plan = s.plan) ∧
    (s.plan ≠ "" ∨ s.draft_plan ≠ "" → (finalize s).plan ≠ "") ∧
    (finalize s).approved = true ∧
    (finalize s).awaiting_review = false := by
  refine ⟨?_, ?_, ?_, rfl, rfl⟩
  · intro hp hd
    simp [finalize, hp, hd]
  · intro hp
    simp [finalize, hp]
  · rintro (hp | hd)
    · simp [finalize, hp]
    · by_cases hp : s.plan = ""
      · simp [finalize, hp, hd]
      · simp [finalize, hp]

/-- Witness for C2 amended: a state with an empty `plan` and draft
"outline" finalizes to "outline". -/
theorem finalize_plan_amended_witness :
    (finalize ({ draft_plan := "outline" } : TravelState)).plan = "outline" :=
  (finalize_plan_amended _).1 rfl (by decide)

/-- C3: resuming a paused state with `approved = false` and a non-empty
`human_feedback` (e.g. "regenerate from scratch") via
`continue_after_feedback` re-runs `refine_plan` then `human_review` on the
unpaused state and yields a fresh pause: `awaiting_review = true`,
`approved = false` — for every iteration count and collaborator outcome. -/
theorem continue_after_feedback_reenters_review (llm : Outcome) (s : TravelState)
    (hap : s.approved = false) (hfb : optStrTruthy s.human_feedback = true) :
    continue_after_feedback llm s
        = human_review (refine_plan llm { s with awaiting_review := false }) ∧
    (continue_after_feedback llm s).awaiting_review = true ∧
    (continue_after_feedback llm s).approved = false := by
  have hstep : continue_after_feedback llm s
      = human_review (refine_plan llm { s with awaiting_review := false }) := by
    simp [continue_after_feedback, hap, hfb]
  refine ⟨hstep, ?_, ?_⟩
  · rw [hstep]; simp
  · rw [hstep]; simp

/-- Witness for C3 at feedback "regenerate from scratch" and iteration 4. -/
theorem continue_after_feedback_reenters_review_witness :
    (continue_after_feedback (Except.ok "revised plan")
        ({ human_feedback := some "regenerate from scratch", iteration_count := 4 }
          : TravelState)).awaiting_review = true ∧
    (continue_after_feedback (Except.ok "revised plan")
        ({ human_feedback := some "regenerate from scratch", iteration_count := 4 }
          : TravelState)).approved = false :=
  ⟨(continue_after_feedback_reenters_review _ _ rfl (by decide)).2.1,
   (continue_after_feedback_reenters_review _ _ rfl (by decide)).2.2⟩

/-- C4: on every input state and every collaborator outcome, `refine_plan`
sets `plan` to the refinement output (the response text on success, the
deterministic fallback itinerary on exception), resets `approved` to false
and clears `human_feedback`. -/
theorem refine_plan_output (llm : Outcome) (s : TravelState) :
    (refine_plan llm s).approved = false ∧
    (refine_plan llm s).human_feedback = none ∧
    (refine_plan llm s).plan
      = (match llm with
         | .ok text => text
         | .error _ =>
             _generate_fallback_itinerary s.draft_plan (refineToolSummaries s.tool_results)
               s.duration (if s.destination = "" then "your destination" else s.destination)
               s.human_feedback) := by
  cases llm <;> exact ⟨rfl, rfl, rfl⟩

/-- C10: `continue_after_feedback` on a state with falsy `approved` and
absent `human_feedback` is the identity: no phase runs, no field changes. -/
theorem continue_after_feedback_identity (llm : Outcome) (s : TravelState)
    (hap : s.approved = false) (hfb : s.human_feedback = none) :
    continue_after_feedback llm s = s := by
  simp [continue_after_feedback, hap, hfb, optStrTruthy]

/-- Witness for C10. -/
theorem continue_after_feedback_identity_witness :
    continue_after_feedback (Except.ok "x") ({ iteration_count := 2 } : TravelState)
      = ({ iteration_count := 2 } : TravelState) :=
  continue_after_feedback_identity _ _ rfl rfl

/-- C5: if `origin`, `destination` or `depart_date` is absent (falsy), the
key `"flights"` never appears in `tool_results` after `run_tools`, regardless
of `selected_tools` and of every tool outcome: the tool is skipped, not
attempted, and not recorded as an error. -/
theorem run_tools_flights_skip (tools : ToolOutcomes) (s : TravelState)
    (h : s.origin = "" ∨ s.destination = "" ∨ s.depart_date = "") :
    List.lookup "flights" (run_tools tools s).tool_results = none := by
  have hng : ¬ (s.origin ≠ "" ∧ s.destination ≠ "" ∧ s.depart_date ≠ "") := by
    rcases h with h | h | h <;> simp [h]
  have hfl : (runFlights s tools.find_flights).1 = [] := by
    unfold runFlights
    by_cases hc : s.selected_tools.contains "find_flights" = true
    · rw [if_pos hc, if_neg hng]
    · rw [if_neg hc]
  have hho : List.lookup "flights" (runHotels s tools.find_hotels).1 = none :=
    lookup_eq_none_of_keys fun p hp => by rw [runHotels_keys _ _ p hp]; decide
  have hatt : List.lookup "flights" (runAttractions s tools.attraction_finder).1 = none :=
    lookup_eq_none_of_keys fun p hp => by rw [runAttractions_keys _ _ p hp]; decide
  have hwe : List.lookup "flights" (runWeather s tools.weather_checker).1 = none :=
    lookup_eq_none_of_keys fun p hp => by rw [runWeather_keys _ _ p hp]; decide
  have hres : (run_tools tools s).tool_results
      = (runFlights s tools.find_flights).1 ++ (runHotels s tools.find_hotels).1
        ++ (runAttractions s tools.attraction_finder).1
        ++ (runWeather s tools.weather_checker).1 := rfl
  rw [hres, hfl]
  simp only [List.nil_append]
  rw [lookup_append_left_none (by rw [lookup_append_left_none hho]; exact hatt)]
  exact hwe

/-- Witness for C5: `find_flights` selected but `origin` missing — no
`flights` entry. -/
theorem run_tools_flights_skip_witness :
    List.lookup "flights"
        (run_tools ({} : ToolOutcomes)
          ({ destination := "LAX", depart_date := "2025-06-01",
             selected_tools := ["find_flights"] } : TravelState)).tool_results = none :=
  run_tools_flights_skip _ _ (Or.inl rfl)

/-- C6: in every state reachable from an initial state with
`approved = false`, `awaiting_review = false` by running the phase functions
along the graph's edges, with the external actor following the documented
resume contract, `awaiting_review = true` implies `approved = false`. -/
theorem awaiting_review_implies_unapproved (s : TravelState)
    (h : Reachable s) (hw : s.awaiting_review = true) : s.approved = false := by
  induction h with
  | init s hap haw => exact hap
  | stepEnhance llm s h ih =>
      rw [enhance_request_awaiting] at hw
      rw [enhance_request_approved]
      exact ih hw
  | stepDraft llm s h ih =>
      rw [draft_plan_awaiting] at hw
      rw [draft_plan_approved]
      exact ih hw
  | stepDecideTools llm jl s h ih =>
      rw [decide_tools_awaiting] at hw
      rw [decide_tools_approved]
      exact ih hw
  | stepRunTools tools s h ih =>
      rw [run_tools_awaiting] at hw
      rw [run_tools_approved]
      exact ih hw
  | stepRefine llm s h ih => exact refine_plan_approved llm s
  | stepReview llm s h ih => simp
  | stepFinalize s h ih =>
      rw [finalize_awaiting] at hw
      cases hw
  | stepApprove s h hwa ih => simp at hw
  | stepFeedback s fb h hwa ih => rfl
  | stepResume llm s h ih =>
      cases hap : s.approved with
      | true =>
          simp [continue_after_feedback, hap] at hw
      | false =>
          by_cases hfb : optStrTruthy s.human_feedback = true
          · simp [continue_after_feedback, hap, hfb] at hw ⊢
          · have hfbf : optStrTruthy s.human_feedback = false := by
              simpa using hfb
            simp only [continue_after_feedback, hap, hfbf] at hw ⊢
            simp at hw ⊢
            exact hap

/-- Witness for C6: the first pause `human_review (refine_plan …)` of a run
from the empty initial state is reachable, awaiting review and unapproved. -/
theorem awaiting_review_implies_unapproved_witness :
    (human_review (refine_plan (Except.ok "plan text") ({} : TravelState))).approved
      = false :=
  awaiting_review_implies_unapproved _
    (Reachable.stepReview (Except.ok "plan text") {} (Reachable.init {} rfl rfl)) rfl

/-- C7 counterexample: `enhance_request` on a blank request does not append —
it resets `notes` to `["request missing"]`, discarding the input notes, so
the input notes `["x"]` are not a prefix of the output notes. -/
theorem notes_append_only_counterexample :
    (enhance_request (Except.ok "t")
        ({ request := "", notes := ["x"] } : TravelState)).notes = ["request missing"] ∧
    List.isPrefixOf ["x"]
        (enhance_request (Except.ok "t")
          ({ request := "", notes := ["x"] } : TravelState)).notes = false :=
  ⟨rfl, by decide⟩

/-- C7 amended: every phase function is append-only on `notes` — the input
notes are a prefix of the output notes, in order — except `enhance_request`
on a state whose request is blank, which resets `notes` to exactly
`["request missing"]`. -/
theorem notes_append_only_amended (llm : Outcome) (jl : String → Option (List String))
    (tools : ToolOutcomes) (s : TravelState) :
    (¬ pyStrip s.request = "" →
      List.isPrefixOf s.notes (enhance_request llm s).notes = true) ∧
    (pyStrip s.request = "" → (enhance_request llm s).notes = ["request missing"]) ∧
    List.isPrefixOf s.notes (draft_plan llm s).notes = true ∧
    List.isPrefixOf s.notes (decide_tools llm jl s).notes = true ∧
    List.isPrefixOf s.notes (run_tools tools s).notes = true ∧
    List.isPrefixOf s.notes (refine_plan llm s).notes = true ∧
    List.isPrefixOf s.notes (human_review s).notes = true ∧
    List.isPrefixOf s.notes (finalize s).notes = true := by
  refine ⟨?_, ?_, ?_, ?_, ?_, ?_, ?_, ?_⟩
  · intro hr
    rw [enhance_request_notes llm s hr]
    exact isPrefixOf_append_self _ _
  · exact enhance_request_notes_blank llm s
  · rw [draft_plan_notes]
    exact isPrefixOf_append_self _ _
  · obtain ⟨entry, he⟩ := decide_tools_notes llm jl s
    rw [he]
    exact isPrefixOf_append_self _ _
  · rw [run_tools_notes]
    exact isPrefixOf_append_self _ _
  · rw [refine_plan_notes]
    exact isPrefixOf_append_self _ _
  · rw [human_review_notes]
    exact isPrefixOf_append_self _ _
  · rw [finalize_notes]
    exact isPrefixOf_append_self _ _

/-- Witness for C7 amended: a non-blank request keeps the existing note as a
prefix. -/
theorem notes_append_only_amended_witness :
    List.isPrefixOf ["old note"]
        (enhance_request (Except.ok "t")
          ({ request := "go to Rome", notes := ["old note"] } : TravelState)).notes
      = true :=
  (notes_append_only_amended (Except.ok "t") (fun _ => (none : Option (List String))) {}
    ({ request := "go to Rome", notes := ["old note"] } : TravelState)).1 (by decide)

/-- C8 counterexample: a tool exception is recorded with a capitalised
`"Error: <message>"` marker, not the claim's `"error: <message>"`. -/
theorem run_tools_error_marker_counterexample :
    List.lookup "flights"
        (run_tools ({ find_flights := Except.error "boom" } : ToolOutcomes)
          ({ origin := "JFK", destination := "LAX", depart_date := "2025-06-01",
             selected_tools := ["find_flights"] } : TravelState)).tool_results
      = some ("Error: boom") ∧
    List.lookup "flights"
        (run_tools ({ find_flights := Except.error "boom" } : ToolOutcomes)
          ({ origin := "JFK", destination := "LAX", depart_date := "2025-06-01",
             selected_tools := ["find_flights"] } : TravelState)).tool_results
      ≠ some ("error: boom") :=
  ⟨rfl, by decide⟩

/-- C8 amended: `run_tools` never raises (it is a total function of the four
tool outcomes); an exception from a selected tool whose required fields are
present is recorded under the tool's stable key as an `"Error: <message>"`
result string; and the four tool blocks are independent — each tool's
entries and the whole result decompose per-tool, so one tool's failure never
prevents a later selected tool from running and recording its result. -/
theorem run_tools_error_isolation_amended (tools : ToolOutcomes) (s : TravelState)
    (e : String) :
    ((run_tools tools s).tool_results
        = (runFlights s tools.find_flights).1 ++ (runHotels s tools.find_hotels).1
          ++ (runAttractions s tools.attraction_finder).1
          ++ (runWeather s tools.weather_checker).1) ∧
    (tools.find_flights = Except.error e →
      s.selected_tools.contains "find_flights" = true →
      s.origin ≠ "" → s.destination ≠ "" → s.depart_date ≠ "" →
      List.lookup "flights" (run_tools tools s).tool_results = some ("Error: " ++ e)) ∧
    (tools.find_hotels = Except.error e →
      s.selected_tools.contains "find_hotels" = true →
      s.destination ≠ "" → s.check_in ≠ "" → s.check_out ≠ "" →
      List.lookup "hotels" (run_tools tools s).tool_results = some ("Error: " ++ e)) ∧
    (tools.attraction_finder = Except.error e →
      s.selected_tools.contains "attraction_finder" = true → s.destination ≠ "" →
      List.lookup "attractions" (run_tools tools s).tool_results = some ("Error: " ++ e)) ∧
    (tools.weather_checker = Except.error e →
      s.selected_tools.contains "weather_checker" = true → s.destination ≠ "" →
      List.lookup "weather" (run_tools tools s).tool_results = some ("Error: " ++ e)) := by
  have hres : (run_tools tools s).tool_results
      = (runFlights s tools.find_flights).1 ++ (runHotels s tools.find_hotels).1
        ++ (runAttractions s tools.attraction_finder).1
        ++ (runWeather s tools.weather_checker).1 := rfl
  have hflN : ∀ k, k ≠ "flights" →
      List.lookup k (runFlights s tools.find_flights).1 = none := fun k hk =>
    lookup_eq_none_of_keys fun p hp => by rw [runFlights_keys _ _ p hp]; exact fun hkk => hk hkk.symm
  have hhoN : ∀ k, k ≠ "hotels" →
      List.lookup k (runHotels s tools.find_hotels).1 = none := fun k hk =>
    lookup_eq_none_of_keys fun p hp => by rw [runHotels_keys _ _ p hp]; exact fun hkk => hk hkk.symm
  have hattN : ∀ k, k ≠ "attractions" →
      List.lookup k (runAttractions s tools.attraction_finder).1 = none := fun k hk =>
    lookup_eq_none_of_keys fun p hp => by rw [runAttractions_keys _ _ p hp]; exact fun hkk => hk hkk.symm
  refine ⟨hres, ?_, ?_, ?_, ?_⟩
  · intro he hsel h1 h2 h3
    have : (runFlights s tools.find_flights).1 = [("flights", "Error: " ++ e)] := by
      unfold runFlights
      rw [he, if_pos hsel, if_pos ⟨h1, h2, h3⟩]
    rw [hres, this]
    rfl
  · intro he hsel h1 h2 h3
    have hho : (runHotels s tools.find_hotels).1 = [("hotels", "Error: " ++ e)] := by
      unfold runHotels
      rw [he, if_pos hsel, if_pos ⟨h1, h2, h3⟩]
    rw [hres]
    rw [List.append_assoc, List.append_assoc]
    rw [lookup_append_left_none (hflN _ (by decide)), hho]
    rfl
  · intro he hsel h1
    have hatt : (runAttractions s tools.attraction_finder).1
        = [("attractions", "Error: " ++ e)] := by
      unfold runAttractions
      rw [he, if_pos hsel, if_pos h1]
    rw [hres]
    rw [List.append_assoc, List.append_assoc]
    rw [lookup_append_left_none (hflN _ (by decide)),
        lookup_append_left_none (hhoN _ (by decide)), hatt]
    rfl
  · intro he hsel h1
    have hwe : (runWeather s tools.weather_checker).1 = [("weather", "Error: " ++ e)] := by
      unfold runWeather
      rw [he, if_pos hsel, if_pos h1]
    rw [hres]
    rw [List.append_assoc, List.append_assoc]
    rw [lookup_append_left_none (hflN _ (by decide)),
        lookup_append_left_none (hhoN _ (by decide)),
        lookup_append_left_none (hattN _ (by decide)), hwe]
    rfl

/-- Witness for C8 amended: with all four tools selected, flights and hotels
both failing, each error is recorded under its stable key. -/
theorem run_tools_error_isolation_amended_witness :
    List.lookup "hotels"
        (run_tools
          ({ find_flights := Except.error "boom", find_hotels := Except.error "down" }
            : ToolOutcomes)
          ({ origin := "JFK", destination := "LAX", depart_date := "2025-06-01",
             check_in := "2025-06-01", check_out := "2025-06-05",
             selected_tools := ["find_flights", "find_hotels", "attraction_finder",
               "weather_checker"] } : TravelState)).tool_results
      = some ("Error: " ++ "down") :=
  (run_tools_error_isolation_amended _ _ "down").2.2.1 rfl (by decide)
    (by decide) (by decide) (by decide)

/-- C9: on every successful collaborator response, `decide_tools` extracts
the selection by slicing from the first `[` to the last `]` and JSON-parsing
that substring; if no such bracket pair exists, or the parse fails, the
selection is empty — and the parse failure never triggers the
exception-fallback selection (the result is `parseToolSelection`, which
ignores the data-availability flags the fallback uses). -/
theorem decide_tools_selection_extraction (jl : String → Option (List String))
    (s : TravelState) (text : String) :
    ((decide_tools (Except.ok text) jl s).selected_tools = parseToolSelection jl text) ∧
    (∀ sub, extractBracketSlice text = some sub →
      (decide_tools (Except.ok text) jl s).selected_tools = (jl sub).getD []) ∧
    (extractBracketSlice text = none →
      (decide_tools (Except.ok text) jl s).selected_tools = []) ∧
    (∀ sub, extractBracketSlice text = some sub → jl sub = none →
      (decide_tools (Except.ok text) jl s).selected_tools = []) := by
  have hsel : (decide_tools (Except.ok text) jl s).selected_tools
      = parseToolSelection jl text := rfl
  refine ⟨hsel, ?_, ?_, ?_⟩
  · intro sub hext
    rw [hsel]
    unfold parseToolSelection
    rw [hext]
    cases h : jl sub <;> simp [h]
  · intro hext
    rw [hsel]
    unfold parseToolSelection
    rw [hext]
  · intro sub hext hparse
    rw [hsel]
    unfold parseToolSelection
    rw [hext]
    simp [hparse]

/-- Witness for C9: the response "choose [1]" has the bracket pair "[1]";
with a parser that fails on it the selection is empty. -/
theorem decide_tools_selection_extraction_witness :
    extractBracketSlice "choose [1]" = some "[1]" ∧
    (decide_tools (Except.ok "choose [1]")
        (fun _ => (none : Option (List String))) ({} : TravelState)).selected_tools
      = [] :=
  ⟨by decide,
   (decide_tools_selection_extraction _ _ _).2.2.2 "[1]" (by decide) rfl⟩

end TravelPlanner
